import Mathlib

/-
  Verification of the panel-to-data synchronization core of the
  industry-themed-file-editing-panels repository.

  The panels are React components; their core logic is a collection of
  asynchronous handlers mutating per-panel state.  We embed each handler as a
  pure step function on an explicit state record.  Each block of source code
  between two await points is one atomic step (the JS event loop never
  preempts synchronous code).  Asynchronous completions (resolved or rejected
  provider promises) are modelled as explicit result values handed to the
  continuation step function; provider calls issued by a step are returned as
  an explicit request / call-trace component.

  JavaScript truthiness: the source guards targets with `if (!filePath)`,
  which treats both null and the empty string as "no target".  The embedding
  mirrors this: the empty string is the code's second representation of the
  absent target.

  Refs in the source (latestFilePathRef, isSavingRef, isDirtyRef) are fields
  of the state record.  isDirtyRef is kept in sync with isDirty by a
  dedicated effect that runs between steps, so the embedding uses a single
  isDirty field for both.
-/

/-- Git change status, from src/types (GitChangeStatus). -/
inductive GitChangeStatus where
  | staged
  | unstaged
  | untracked
  | deleted
  deriving DecidableEq, Repr

/-- Outcome of an awaited provider readFile / getOriginal / getModified call:
resolved with a string, resolved with null, or rejected with a message. -/
inductive ReadResult where
  | ok (content : Option String)
  | err (msg : String)
  deriving DecidableEq, Repr

/-- Outcome of an awaited provider writeFile call. -/
inductive WriteResult where
  | ok
  | err (msg : String)
  deriving DecidableEq, Repr

/-- Events the event-driven file editor variant emits on its event bridge
(FileEditorPanel.stories.tsx: types file:save and file:close). -/
inductive PanelEvent where
  | fileSave (path : String)
  | fileClose (path : String)
  deriving DecidableEq, Repr

/-- State of the FileEditorPanel (FileEditorPanel.tsx lines 73-82):
fileContent is the persisted snapshot, editorContent the working snapshot. -/
structure EditorState where
  latestFilePath : Option String
  fileContent : String
  editorContent : String
  isLoading : Bool
  error : Option String
  isDirty : Bool
  isSaving : Bool
  saveError : Option String
  isSavingRef : Bool
  deriving DecidableEq, Repr

/-- Initial state of a freshly mounted editor panel (useState initial values). -/
def initialEditorState : EditorState :=
  { latestFilePath := none
    fileContent := ""
    editorContent := ""
    isLoading := false
    error := none
    isDirty := false
    isSaving := false
    saveError := none
    isSavingRef := false }

/-- The no-target branch of loadFile (FileEditorPanel.tsx lines 101-109):
clears snapshots and flags, issues no read. -/
def resetLoad (s : EditorState) : EditorState × Option String :=
  ({ s with latestFilePath := none
            fileContent := ""
            editorContent := ""
            isDirty := false
            isSaving := false
            saveError := none }, none)

/-- loadFile up to its await (FileEditorPanel.tsx lines 100-116).  The second
component is the readFile request issued (the path), if any.  A falsy path
(null or empty) takes the reset branch. -/
def loadFileStart : Option String → EditorState → EditorState × Option String
  | none, s => resetLoad s
  | some p, s =>
      if p = "" then resetLoad s
      else
        ({ s with latestFilePath := some p, isLoading := true, error := none },
         some p)

/-- The continuation of loadFile after await readFile resolves for path p
(FileEditorPanel.tsx lines 118-142).  All three branches (success, thrown
null-content error, rejection) are guarded by the staleness check against
latestFilePathRef; when the check fails nothing at all is mutated. -/
def applyLoadResult (p : String) (r : ReadResult) (s : EditorState) :
    EditorState :=
  if s.latestFilePath = some p then
    match r with
    | ReadResult.ok (some c) =>
        let s1 := { s with fileContent := c, saveError := none }
        let s2 :=
          if s1.isDirty then s1
          else { s1 with editorContent := c, isDirty := false }
        { s2 with isLoading := false }
    | ReadResult.ok none =>
        { s with error := some "Failed to read file"
                 fileContent := ""
                 isLoading := false }
    | ReadResult.err m =>
        { s with error := some m, fileContent := "", isLoading := false }
  else s

/-- Effects that run when the filePath prop changes to p: the reset effect on
[filePath] (FileEditorPanel.tsx lines 88-94) followed by the loadFile effect
(lines 145-147). -/
def filePathChangeEffects (p : Option String) (s : EditorState) :
    EditorState × Option String :=
  loadFileStart p
    { s with isDirty := false
             isSaving := false
             isSavingRef := false
             saveError := none }

/-- handleEditorChange (FileEditorPanel.tsx lines 164-174): updates the
working snapshot, recomputes dirty against the persisted snapshot and clears
any stale save error. -/
def handleEditorChange (value : Option String) (s : EditorState) :
    EditorState :=
  let nextValue := value.getD ""
  { s with editorContent := nextValue
           isDirty := nextValue != s.fileContent
           saveError := none }

/-- A writeFile request: path plus content to save. -/
structure SaveRequest where
  path : String
  content : String
  deriving DecidableEq, Repr

/-- handleEditorSave up to its await (FileEditorPanel.tsx lines 177-193 and
identically FileEditorPanel.stories.tsx lines 351-367).  hasWrite models the
presence of the optional writeFile capability.  The second component is the
writeFile request issued, if any. -/
def handleEditorSaveStart (filePath : Option String) (hasWrite : Bool)
    (value : Option String) (s : EditorState) :
    EditorState × Option SaveRequest :=
  match filePath with
  | none => (s, none)
  | some p =>
      if p = "" then (s, none)
      else if hasWrite = false then (s, none)
      else
        let contentToSave := value.getD s.editorContent
        if s.isDirty = false ∧ contentToSave = s.fileContent then (s, none)
        else
          ({ s with isSavingRef := true, isSaving := true, saveError := none },
           some { path := p, content := contentToSave })

/-- The continuation of handleEditorSave after await writeFile settles, for
the prop-driven variant (FileEditorPanel.tsx lines 195-211).  Every mutation
except the isSavingRef reset is guarded by the staleness check. -/
def applySaveResult (p : String) (content : String) (r : WriteResult)
    (s : EditorState) : EditorState :=
  match r with
  | WriteResult.ok =>
      if s.latestFilePath = some p then
        { s with fileContent := content
                 editorContent := content
                 isDirty := false
                 isSaving := false
                 isSavingRef := false }
      else { s with isSavingRef := false }
  | WriteResult.err m =>
      if s.latestFilePath = some p then
        { s with saveError := some m, isSaving := false, isSavingRef := false }
      else { s with isSavingRef := false }

/-- The same save continuation in the event-driven variant
(FileEditorPanel.stories.tsx lines 366-393), which additionally emits a
file:save event naming the path inside the staleness-guarded success block.
The second component is the list of emitted events. -/
def applySaveResultEv (p : String) (content : String) (r : WriteResult)
    (s : EditorState) : EditorState × List PanelEvent :=
  match r with
  | WriteResult.ok =>
      if s.latestFilePath = some p then
        ({ s with fileContent := content
                  editorContent := content
                  isDirty := false
                  isSaving := false
                  isSavingRef := false }, [PanelEvent.fileSave p])
      else ({ s with isSavingRef := false }, [])
  | WriteResult.err m =>
      if s.latestFilePath = some p then
        ({ s with saveError := some m, isSaving := false, isSavingRef := false },
         [])
      else ({ s with isSavingRef := false }, [])

/-- The file-watch callback (FileEditorPanel.tsx lines 155-159): reloads the
current path unless a save is in flight.  The watch effect only subscribes
when the path is truthy (line 151), so callers always pass the current
non-empty path. -/
def watchCallback (filePath : Option String) (s : EditorState) :
    EditorState × Option String :=
  if s.isSavingRef then (s, none) else loadFileStart filePath s

/-- One of the two concurrent provider calls of the diff panel. -/
inductive DiffCall where
  | getOriginal (path : String) (status : GitChangeStatus)
  | getModified (path : String) (status : GitChangeStatus)
  deriving DecidableEq, Repr

/-- Settlement of the Promise.all over getOriginal and getModified
(part_005 GitDiffPanel lines 119-122): resolves only once both calls have
resolved, carrying both payloads; rejects as soon as either call rejects,
carrying that rejection message. -/
inductive DiffResult where
  | ok (original modified : Option String)
  | err (msg : String)
  deriving DecidableEq, Repr

/-- State of the prop-driven GitDiffPanel (part_005 lines 96-99).  The epoch
field models the isActive closure flag of the load effect: each effect run
gets a fresh epoch and the cleanup of a superseded run (executed before the
next run, part_005 lines 148-150) makes its closure permanently inactive, so
a completion is applied only when its epoch is still the current one. -/
structure DiffState where
  originalContent : String
  modifiedContent : String
  isLoading : Bool
  error : Option String
  epoch : Nat
  deriving DecidableEq, Repr

/-- Initial state of a freshly mounted diff panel. -/
def initialDiffState : DiffState :=
  { originalContent := ""
    modifiedContent := ""
    isLoading := false
    error := none
    epoch := 0 }

/-- loadDiff up to its await (part_005 lines 106-122), run by the effect when
the (path, status) target changes.  The falsy-path branch clears both
snapshots and issues no call; otherwise both provider calls are issued
together.  The previous epoch is invalidated either way. -/
def loadDiffStart (filePath : Option String) (status : GitChangeStatus)
    (s : DiffState) : DiffState × List (Nat × DiffCall) :=
  let e := s.epoch + 1
  match filePath with
  | none =>
      ({ s with epoch := e
                originalContent := ""
                modifiedContent := ""
                isLoading := false
                error := none }, [])
  | some p =>
      if p = "" then
        ({ s with epoch := e
                  originalContent := ""
                  modifiedContent := ""
                  isLoading := false
                  error := none }, [])
      else
        ({ s with epoch := e, isLoading := true, error := none },
         [(e, DiffCall.getOriginal p status), (e, DiffCall.getModified p status)])

/-- The continuation of loadDiff after the Promise.all settles (part_005
lines 124-143), for the effect run with epoch e.  A stale run (isActive
false, i.e. e differs from the current epoch) changes nothing; a rejection
sets the error and clears both snapshots. -/
def applyDiffResult (e : Nat) (r : DiffResult) (s : DiffState) : DiffState :=
  if e = s.epoch then
    match r with
    | DiffResult.ok o m =>
        { s with originalContent := o.getD ""
                 modifiedContent := m.getD ""
                 isLoading := false }
    | DiffResult.err m =>
        { s with error := some ("Failed to load diff: " ++ m)
                 originalContent := ""
                 modifiedContent := ""
                 isLoading := false }
  else s

/-- A provider call made by the MDX editor panel. -/
inductive MDXCall where
  | write (path content : String)
  | read (path : String)
  deriving DecidableEq, Repr

/-- State of the MDXEditorPanel (part_001 lines 58-64): markdown is the
working snapshot, currentFilePath the last successfully loaded target. -/
structure MDXState where
  markdown : String
  isLoading : Bool
  loadError : Option String
  currentFilePath : Option String
  parseError : Option String
  isDirty : Bool
  deriving DecidableEq, Repr

/-- loadFileContent (part_001 lines 137-180), run whole as one step: its
awaits only suspend inside this one handler.  hasProvider and hasWrite model
the optional contentProvider and its optional writeFile.  autosaveResult is
the settlement of the auto-save write; the source catches and only logs its
rejection, so it influences nothing.  readResult is the settlement of the
readFile call.  The second component is the ordered provider-call trace. -/
def loadFileContent (filePath : Option String) (hasProvider hasWrite : Bool)
    (initialContent : String) (autosaveResult : WriteResult)
    (readResult : ReadResult) (s : MDXState) : MDXState × List MDXCall :=
  match filePath with
  | none => ({ s with markdown := initialContent, currentFilePath := none }, [])
  | some p =>
      if p = "" ∨ hasProvider = false then
        ({ s with markdown := initialContent, currentFilePath := none }, [])
      else if some p = s.currentFilePath then (s, [])
      else
          let autosave : List MDXCall :=
            match s.currentFilePath with
            | some old =>
                if old ≠ "" ∧ s.isDirty = true ∧ hasWrite = true then
                  [MDXCall.write old s.markdown]
                else []
            | none => []
          let _ := autosaveResult
          let s1 := { s with isLoading := true, loadError := none }
          match readResult with
          | ReadResult.ok (some c) =>
              ({ s1 with markdown := c
                         currentFilePath := some p
                         parseError := none
                         isDirty := false
                         isLoading := false }, autosave ++ [MDXCall.read p])
          | ReadResult.ok none =>
              ({ s1 with loadError := some ("Failed to load file: " ++ p)
                         markdown := initialContent
                         parseError := none
                         isLoading := false }, autosave ++ [MDXCall.read p])
          | ReadResult.err _ =>
              ({ s1 with loadError := some ("Failed to load file: " ++ p)
                         markdown := initialContent
                         parseError := none
                         isLoading := false }, autosave ++ [MDXCall.read p])

/-- The unmount cleanup of the auto-save effect (part_001 lines 186-198):
fire-and-forget write of the dirty working markdown to the current path, its
rejection only logged.  Returns the provider calls made. -/
def unmountCleanup (hasWrite : Bool) (s : MDXState) : List MDXCall :=
  match s.currentFilePath with
  | some p =>
      if p ≠ "" ∧ s.isDirty = true ∧ hasWrite = true then
        [MDXCall.write p s.markdown]
      else []
  | none => []

/-- The extension lookup table of getLanguage in the editor panels
(FileEditorPanel.tsx lines 25-60). -/
def editorLanguageMap : List (String × String) :=
  [("js", "javascript"), ("jsx", "javascript"), ("ts", "typescript"),
   ("tsx", "typescript"), ("py", "python"), ("java", "java"), ("c", "c"),
   ("cpp", "cpp"), ("cs", "csharp"), ("php", "php"), ("rb", "ruby"),
   ("go", "go"), ("rs", "rust"), ("kt", "kotlin"), ("swift", "swift"),
   ("json", "json"), ("xml", "xml"), ("html", "html"), ("css", "css"),
   ("scss", "scss"), ("sass", "sass"), ("less", "less"), ("sql", "sql"),
   ("sh", "bash"), ("bash", "bash"), ("zsh", "bash"), ("yaml", "yaml"),
   ("yml", "yaml"), ("toml", "toml"), ("ini", "ini"), ("cfg", "ini"),
   ("conf", "ini"), ("md", "markdown"), ("mdx", "markdown")]

/-- The extension lookup table of languageFromPath in the diff panels
(part_005 lines 47-84); it additionally maps h and hpp. -/
def diffLanguageMap : List (String × String) :=
  [("js", "javascript"), ("jsx", "javascript"), ("ts", "typescript"),
   ("tsx", "typescript"), ("py", "python"), ("java", "java"), ("c", "c"),
   ("cpp", "cpp"), ("h", "c"), ("hpp", "cpp"), ("cs", "csharp"),
   ("go", "go"), ("rs", "rust"), ("php", "php"), ("rb", "ruby"),
   ("swift", "swift"), ("kt", "kotlin"), ("json", "json"), ("yaml", "yaml"),
   ("yml", "yaml"), ("toml", "toml"), ("ini", "ini"), ("cfg", "ini"),
   ("conf", "ini"), ("xml", "xml"), ("html", "html"), ("css", "css"),
   ("scss", "scss"), ("sass", "sass"), ("less", "less"), ("sh", "bash"),
   ("bash", "bash"), ("zsh", "bash"), ("md", "markdown"),
   ("mdx", "markdown"), ("sql", "sql")]

/-- JavaScript split('.') on the character list of a path: every dot is a
separator, adjacent and leading or trailing dots yield empty segments, and
the empty string splits to one empty segment. -/
def splitOnDot : List Char → List (List Char)
  | [] => [[]]
  | c :: cs =>
      let rest := splitOnDot cs
      if c = '.' then [] :: rest
      else
        match rest with
        | [] => [[c]]
        | seg :: tail => (c :: seg) :: tail

/-- The key both functions look up: the last split('.') segment, lowercased
(split never yields an empty array, so pop() is the last segment).  For a
path containing a dot this is the text after the last dot; for a dotless
path JavaScript pop() returns the whole string. -/
def extKey (p : String) : String :=
  String.mk (((splitOnDot p.data).getLastD []).map Char.toLower)

/-- getLanguage (FileEditorPanel.tsx lines 23-62): total on strings, falls
back to plaintext for unmapped keys. -/
def getLanguage (path : String) : String :=
  ((editorLanguageMap.lookup (extKey path)).getD "plaintext")

/-- languageFromPath (part_005 lines 41-87): a falsy path (null or empty)
maps to plaintext directly. -/
def languageFromPath (filePath : Option String) : String :=
  match filePath with
  | none => "plaintext"
  | some p =>
      if p = "" then "plaintext"
      else ((diffLanguageMap.lookup (extKey p)).getD "plaintext")

/-- A sample editor state whose current target is b, used to exhibit the
discard of a stale completion for a. -/
def staleEditorState : EditorState :=
  { initialEditorState with
      latestFilePath := some "b"
      fileContent := "persisted-b"
      editorContent := "persisted-b" }

/-- A sample dirty editor state: the user edited while f is loaded. -/
def dirtyEditorState : EditorState :=
  { latestFilePath := some "f"
    fileContent := "disk"
    editorContent := "edited"
    isLoading := false
    error := none
    isDirty := true
    isSaving := false
    saveError := none
    isSavingRef := false }

/-- A sample clean editor state: target f loaded with content x, no edits. -/
def cleanEditorState : EditorState :=
  { latestFilePath := some "f"
    fileContent := "x"
    editorContent := "x"
    isLoading := false
    error := none
    isDirty := false
    isSaving := false
    saveError := none
    isSavingRef := false }

/-- A sample editor state sitting in a load error for target f. -/
def errorEditorState : EditorState :=
  { cleanEditorState with error := some "Failed to read file" }

/-- A sample MDX state with a dirty working snapshot for old.md. -/
def mdxDirtyState : MDXState :=
  { markdown := "draft"
    isLoading := false
    loadError := none
    currentFilePath := some "old.md"
    parseError := none
    isDirty := true }

/-- A sample MDX state with nothing loaded yet. -/
def mdxFreshState : MDXState :=
  { markdown := "init"
    isLoading := false
    loadError := none
    currentFilePath := none
    parseError := none
    isDirty := false }

/-- Helper: a defaulted association-list lookup always lands in the default
or in the table's set of values. -/
theorem lookup_getD_mem (l : List (String × String)) (k d : String) :
    ((l.lookup k).getD d) ∈ d :: l.map Prod.snd := by
  induction l with
  | nil => simp
  | cons a l ih =>
      rcases a with ⟨a1, a2⟩
      simp only [List.lookup, List.map_cons]
      cases hk : k == a1
      · rcases List.mem_cons.mp ih with h1 | h1
        · exact List.mem_cons.mpr (Or.inl h1)
        · exact List.mem_cons.mpr (Or.inr (List.mem_cons.mpr (Or.inr h1)))
      · simp

/-- Helper: whatever a read completion does, it never touches the working
snapshot of a dirty panel. -/
theorem applyLoadResult_keeps_working_of_dirty (s : EditorState) (q : String)
    (r : ReadResult) (hd : s.isDirty = true) :
    (applyLoadResult q r s).editorContent = s.editorContent := by
  unfold applyLoadResult
  by_cases h : s.latestFilePath = some q
  · rw [if_pos h]
    cases r with
    | ok oc =>
        cases oc with
        | none => rfl
        | some c => simp [hd]
    | err m => rfl
  · rw [if_neg h]

/-- Claim C1: staleness discard on target switch.  A read completion whose
requested path no longer equals the current target (editor panel) is
discarded without mutating any state, and likewise a diff completion from a
superseded effect run (diff panel); in the concrete scenario setTarget a
immediately followed by setTarget b, with the read for b resolving first and
the read for a resolving late, applying the late result changes nothing and
the panel content is the content read for b, never the content read for a. -/
theorem load_result_staleness_discard :
    (∀ (s : EditorState) (p : String) (r : ReadResult),
        s.latestFilePath ≠ some p → applyLoadResult p r s = s) ∧
    (∀ (s : DiffState) (e : Nat) (r : DiffResult),
        e ≠ s.epoch → applyDiffResult e r s = s) ∧
    (applyLoadResult "a" (ReadResult.ok (some "content-of-a"))
        (applyLoadResult "b" (ReadResult.ok (some "content-of-b"))
          (filePathChangeEffects (some "b")
            (filePathChangeEffects (some "a") initialEditorState).1).1) =
      applyLoadResult "b" (ReadResult.ok (some "content-of-b"))
        (filePathChangeEffects (some "b")
          (filePathChangeEffects (some "a") initialEditorState).1).1) ∧
    (applyLoadResult "a" (ReadResult.ok (some "content-of-a"))
        (applyLoadResult "b" (ReadResult.ok (some "content-of-b"))
          (filePathChangeEffects (some "b")
            (filePathChangeEffects (some "a") initialEditorState).1).1)).editorContent
      = "content-of-b" := by
  refine ⟨?_, ?_, ?_, ?_⟩
  · intro s p r h
    unfold applyLoadResult
    rw [if_neg h]
  · intro s e r h
    unfold applyDiffResult
    rw [if_neg h]
  · decide
  · decide

/-- Witness for C1: a concrete stale completion (requested a, current b) is
discarded by both panels. -/
theorem load_result_staleness_discard_witness :
    applyLoadResult "a" (ReadResult.err "boom") staleEditorState =
      staleEditorState ∧
    applyDiffResult 1 (DiffResult.err "boom")
        { initialDiffState with epoch := 2 } =
      { initialDiffState with epoch := 2 } :=
  ⟨load_result_staleness_discard.1 staleEditorState "a"
      (ReadResult.err "boom") (by decide),
   load_result_staleness_discard.2.1 { initialDiffState with epoch := 2 } 1
      (DiffResult.err "boom") (by decide)⟩

/-- Claim C2: applying a successful non-null read for the current target sets
the persisted snapshot to the read content, and sets the working snapshot to
it exactly when the panel is not dirty at application time; a dirty working
snapshot is left untouched. -/
theorem load_apply_preserves_dirty_working (s : EditorState) (p c : String)
    (h : s.latestFilePath = some p) :
    (applyLoadResult p (ReadResult.ok (some c)) s).fileContent = c ∧
    (applyLoadResult p (ReadResult.ok (some c)) s).editorContent =
      (if s.isDirty then s.editorContent else c) ∧
    (s.isDirty = true →
      (applyLoadResult p (ReadResult.ok (some c)) s).editorContent =
        s.editorContent) := by
  unfold applyLoadResult
  rw [if_pos h]
  cases hd : s.isDirty <;> simp [hd]

/-- Witness for C2 at a dirty state: the persisted snapshot takes the read
content while the edited working snapshot survives. -/
theorem load_apply_preserves_dirty_working_witness :
    (applyLoadResult "f" (ReadResult.ok (some "new")) dirtyEditorState).fileContent
        = "new" ∧
    (applyLoadResult "f" (ReadResult.ok (some "new")) dirtyEditorState).editorContent
        = (if dirtyEditorState.isDirty then dirtyEditorState.editorContent
           else "new") ∧
    (dirtyEditorState.isDirty = true →
      (applyLoadResult "f" (ReadResult.ok (some "new")) dirtyEditorState).editorContent
        = dirtyEditorState.editorContent) :=
  load_apply_preserves_dirty_working dirtyEditorState "f" "new" (by decide)

/-- Claim C3 (amended): while the panel is dirty, a file-watch external
change callback never alters the working snapshot or the dirty flag.  The
reload is skipped only while a save is in flight; while merely dirty it does
run, but neither the callback step nor the eventual completion of the
triggered read touches the working snapshot, so unsaved edits are never
silently overwritten.  (The original no-op-or-deferred clause is refuted
separately: the dirty-state reload runs and refreshes the persisted
snapshot.) -/
theorem external_change_preserves_dirty_edits (s : EditorState)
    (p q : String) (r : ReadResult) (hp : p ≠ "") (hd : s.isDirty = true) :
    ((watchCallback (some p) s).1).editorContent = s.editorContent ∧
    ((watchCallback (some p) s).1).isDirty = true ∧
    (applyLoadResult q r (watchCallback (some p) s).1).editorContent =
      s.editorContent := by
  have hmain : ((watchCallback (some p) s).1).editorContent = s.editorContent ∧
      ((watchCallback (some p) s).1).isDirty = true := by
    unfold watchCallback
    by_cases hs : s.isSavingRef = true
    · rw [if_pos hs]
      exact ⟨rfl, hd⟩
    · rw [if_neg hs]
      simp only [loadFileStart]
      rw [if_neg hp]
      exact ⟨rfl, hd⟩
  refine ⟨hmain.1, hmain.2, ?_⟩
  rw [applyLoadResult_keeps_working_of_dirty _ q r hmain.2]
  exact hmain.1

/-- Witness for C3: a watch callback firing on the dirty sample state leaves
the edited working snapshot alone, through the completed reload included. -/
theorem external_change_preserves_dirty_edits_witness :
    ((watchCallback (some "f") dirtyEditorState).1).editorContent =
        dirtyEditorState.editorContent ∧
    ((watchCallback (some "f") dirtyEditorState).1).isDirty = true ∧
    (applyLoadResult "f" (ReadResult.ok (some "disk-v2"))
        (watchCallback (some "f") dirtyEditorState).1).editorContent =
      dirtyEditorState.editorContent :=
  external_change_preserves_dirty_edits dirtyEditorState "f" "f"
    (ReadResult.ok (some "disk-v2")) (by decide) (by decide)

/-- Counterexample to claim C3 as stated: in a dirty (non-saving) state the
external-change reload neither no-ops nor is deferred.  The watch callback
guards only on isSavingRef, so on the dirty sample state it immediately
issues a read for the current path and enters the loading state, and the
completion of that read alters state: the persisted snapshot is refreshed to
the new disk content. -/
theorem external_change_reload_counterexample :
    dirtyEditorState.isDirty = true ∧
    dirtyEditorState.isSavingRef = false ∧
    (watchCallback (some "f") dirtyEditorState).2 = some "f" ∧
    (watchCallback (some "f") dirtyEditorState).1.isLoading = true ∧
    (applyLoadResult "f" (ReadResult.ok (some "disk-v2"))
        (watchCallback (some "f") dirtyEditorState).1).fileContent =
      "disk-v2" ∧
    (applyLoadResult "f" (ReadResult.ok (some "disk-v2"))
        (watchCallback (some "f") dirtyEditorState).1).fileContent ≠
      dirtyEditorState.fileContent := by
  decide

/-- Claim C4: save round trip.  After edit x (made dirty) followed by save
with a write-capable provider, a successful write applied while the target is
unchanged yields a clean panel whose persisted and working snapshots are both
x, and the event-driven variant emits exactly one file-save event naming the
path.  (The prop-driven variant performs the same state transition without an
event bridge.) -/
theorem save_round_trip (s : EditorState) (p x : String) (hp : p ≠ "")
    (hl : s.latestFilePath = some p) (hx : x ≠ s.fileContent) :
    (handleEditorSaveStart (some p) true none
        (handleEditorChange (some x) s)).2 =
      some { path := p, content := x } ∧
    (applySaveResultEv p x WriteResult.ok
        (handleEditorSaveStart (some p) true none
          (handleEditorChange (some x) s)).1).1.isDirty = false ∧
    (applySaveResultEv p x WriteResult.ok
        (handleEditorSaveStart (some p) true none
          (handleEditorChange (some x) s)).1).1.fileContent = x ∧
    (applySaveResultEv p x WriteResult.ok
        (handleEditorSaveStart (some p) true none
          (handleEditorChange (some x) s)).1).1.editorContent = x ∧
    (applySaveResultEv p x WriteResult.ok
        (handleEditorSaveStart (some p) true none
          (handleEditorChange (some x) s)).1).2 = [PanelEvent.fileSave p] := by
  have hbne : (x != s.fileContent) = true := bne_iff_ne.mpr hx
  have hs1 : handleEditorChange (some x) s =
      { s with editorContent := x, isDirty := true, saveError := none } := by
    simp [handleEditorChange, hbne]
  rw [hs1]
  have hs2 : handleEditorSaveStart (some p) true none
      { s with editorContent := x, isDirty := true, saveError := none } =
      ({ s with editorContent := x, isDirty := true, saveError := none,
                isSavingRef := true, isSaving := true },
       some { path := p, content := x }) := by
    simp [handleEditorSaveStart, hp]
  rw [hs2]
  simp [applySaveResultEv, hl]

/-- Witness for C4 on the clean sample state: editing to x2 and saving
succeeds, leaving both snapshots at x2 and emitting one file-save event. -/
theorem save_round_trip_witness :
    (handleEditorSaveStart (some "f") true none
        (handleEditorChange (some "x2") cleanEditorState)).2 =
      some { path := "f", content := "x2" } ∧
    (applySaveResultEv "f" "x2" WriteResult.ok
        (handleEditorSaveStart (some "f") true none
          (handleEditorChange (some "x2") cleanEditorState)).1).1.isDirty
        = false ∧
    (applySaveResultEv "f" "x2" WriteResult.ok
        (handleEditorSaveStart (some "f") true none
          (handleEditorChange (some "x2") cleanEditorState)).1).1.fileContent
        = "x2" ∧
    (applySaveResultEv "f" "x2" WriteResult.ok
        (handleEditorSaveStart (some "f") true none
          (handleEditorChange (some "x2") cleanEditorState)).1).1.editorContent
        = "x2" ∧
    (applySaveResultEv "f" "x2" WriteResult.ok
        (handleEditorSaveStart (some "f") true none
          (handleEditorChange (some "x2") cleanEditorState)).1).2
        = [PanelEvent.fileSave "f"] :=
  save_round_trip cleanEditorState "f" "x2" (by decide) (by decide) (by decide)

/-- Claim C5: save failure atomicity.  After edit x, a save whose provider
write rejects with message m leaves the working snapshot at x and the panel
dirty, records m as the save error, and emits no event; the edited content is
not reverted. -/
theorem save_failure_preserves_edits (s : EditorState) (p x m : String)
    (hp : p ≠ "") (hl : s.latestFilePath = some p) (hx : x ≠ s.fileContent) :
    (applySaveResult p x (WriteResult.err m)
        (handleEditorSaveStart (some p) true none
          (handleEditorChange (some x) s)).1).editorContent = x ∧
    (applySaveResult p x (WriteResult.err m)
        (handleEditorSaveStart (some p) true none
          (handleEditorChange (some x) s)).1).isDirty = true ∧
    (applySaveResult p x (WriteResult.err m)
        (handleEditorSaveStart (some p) true none
          (handleEditorChange (some x) s)).1).saveError = some m ∧
    (applySaveResultEv p x (WriteResult.err m)
        (handleEditorSaveStart (some p) true none
          (handleEditorChange (some x) s)).1).2 = [] := by
  have hbne : (x != s.fileContent) = true := bne_iff_ne.mpr hx
  have hs1 : handleEditorChange (some x) s =
      { s with editorContent := x, isDirty := true, saveError := none } := by
    simp [handleEditorChange, hbne]
  rw [hs1]
  have hs2 : handleEditorSaveStart (some p) true none
      { s with editorContent := x, isDirty := true, saveError := none } =
      ({ s with editorContent := x, isDirty := true, saveError := none,
                isSavingRef := true, isSaving := true },
       some { path := p, content := x }) := by
    simp [handleEditorSaveStart, hp]
  rw [hs2]
  simp [applySaveResult, applySaveResultEv, hl]

/-- Witness for C5 on the clean sample state: a rejected write keeps the
edit x2, the dirty flag and records the failure message. -/
theorem save_failure_preserves_edits_witness :
    (applySaveResult "f" "x2" (WriteResult.err "disk full")
        (handleEditorSaveStart (some "f") true none
          (handleEditorChange (some "x2") cleanEditorState)).1).editorContent
        = "x2" ∧
    (applySaveResult "f" "x2" (WriteResult.err "disk full")
        (handleEditorSaveStart (some "f") true none
          (handleEditorChange (some "x2") cleanEditorState)).1).isDirty
        = true ∧
    (applySaveResult "f" "x2" (WriteResult.err "disk full")
        (handleEditorSaveStart (some "f") true none
          (handleEditorChange (some "x2") cleanEditorState)).1).saveError
        = some "disk full" ∧
    (applySaveResultEv "f" "x2" (WriteResult.err "disk full")
        (handleEditorSaveStart (some "f") true none
          (handleEditorChange (some "x2") cleanEditorState)).1).2 = [] :=
  save_failure_preserves_edits cleanEditorState "f" "x2" "disk full"
    (by decide) (by decide) (by decide)

/-- Claim C6: diff dual-fetch atomicity.  Setting a (path, status) target
issues getOriginal and getModified together; the rejection of either (the
combined settlement rejecting) clears both snapshots and records the load
error, while the panel leaves its loading state with new content only via the
combined completion carrying both payloads. -/
theorem diff_dual_fetch_atomicity (s : DiffState) (p : String)
    (st : GitChangeStatus) (m : String) (o mo : Option String) (hp : p ≠ "") :
    loadDiffStart (some p) st s =
      ({ s with epoch := s.epoch + 1, isLoading := true, error := none },
       [(s.epoch + 1, DiffCall.getOriginal p st),
        (s.epoch + 1, DiffCall.getModified p st)]) ∧
    applyDiffResult (s.epoch + 1) (DiffResult.err m)
        { s with epoch := s.epoch + 1, isLoading := true, error := none } =
      { s with epoch := s.epoch + 1
               isLoading := false
               error := some ("Failed to load diff: " ++ m)
               originalContent := ""
               modifiedContent := "" } ∧
    applyDiffResult (s.epoch + 1) (DiffResult.ok o mo)
        { s with epoch := s.epoch + 1, isLoading := true, error := none } =
      { s with epoch := s.epoch + 1
               isLoading := false
               error := none
               originalContent := o.getD ""
               modifiedContent := mo.getD "" } := by
  refine ⟨?_, ?_, ?_⟩ <;> simp [loadDiffStart, applyDiffResult, hp]

/-- Witness for C6 from the initial diff state: the two calls are issued
together and a rejection yields an error state with both snapshots empty. -/
theorem diff_dual_fetch_atomicity_witness :
    loadDiffStart (some "f.ts") GitChangeStatus.unstaged initialDiffState =
      ({ initialDiffState with
           epoch := initialDiffState.epoch + 1
           isLoading := true
           error := none },
       [(initialDiffState.epoch + 1,
         DiffCall.getOriginal "f.ts" GitChangeStatus.unstaged),
        (initialDiffState.epoch + 1,
         DiffCall.getModified "f.ts" GitChangeStatus.unstaged)]) ∧
    applyDiffResult (initialDiffState.epoch + 1) (DiffResult.err "net")
        { initialDiffState with
            epoch := initialDiffState.epoch + 1
            isLoading := true
            error := none } =
      { initialDiffState with
          epoch := initialDiffState.epoch + 1
          isLoading := false
          error := some ("Failed to load diff: " ++ "net")
          originalContent := ""
          modifiedContent := "" } ∧
    applyDiffResult (initialDiffState.epoch + 1)
        (DiffResult.ok (some "O") (some "M"))
        { initialDiffState with
            epoch := initialDiffState.epoch + 1
            isLoading := true
            error := none } =
      { initialDiffState with
          epoch := initialDiffState.epoch + 1
          isLoading := false
          error := none
          originalContent := (some "O").getD ""
          modifiedContent := (some "M").getD "" } :=
  diff_dual_fetch_atomicity initialDiffState "f.ts" GitChangeStatus.unstaged
    "net" (some "O") (some "M") (by decide)

/-- Helper: a failed MDX load of p (null content or rejection) records the
load error and leaves currentFilePath, markdown dirtiness tracking aside,
pointing wherever it pointed before. -/
theorem loadFileContent_failure (s : MDXState) (p : String) (hw : Bool)
    (init : String) (wr : WriteResult) (rf : ReadResult) (hp : p ≠ "")
    (hne : ¬ some p = s.currentFilePath)
    (hrf : rf = ReadResult.ok none ∨ ∃ m, rf = ReadResult.err m) :
    (loadFileContent (some p) true hw init wr rf s).1 =
      { s with markdown := init
               isLoading := false
               loadError := some ("Failed to load file: " ++ p)
               parseError := none } := by
  rcases hrf with h | ⟨m, h⟩ <;> subst h <;> simp [loadFileContent, hp, hne]

/-- Helper: whenever the MDX loader actually proceeds (truthy new path,
provider present, path not already current), a readFile call for that path is
part of its provider-call trace, whatever the outcomes are. -/
theorem loadFileContent_issues_read (s : MDXState) (p : String) (hw : Bool)
    (init : String) (wr : WriteResult) (r : ReadResult) (hp : p ≠ "")
    (hne : ¬ some p = s.currentFilePath) :
    MDXCall.read p ∈ (loadFileContent (some p) true hw init wr r s).2 := by
  rcases r with oc | m
  · rcases oc with _ | c <;> simp [loadFileContent, hp, hne]
  · simp [loadFileContent, hp, hne]

/-- Claim C7: retry after error.  The editor loadFile has no target-equality
guard at all: invoked in a load- or save-error state for the same current
target it still issues a fresh read.  The MDX loader guards on equality with
its last successfully loaded path, but a failed load never updates that path,
so re-invoking the load for the failed target always re-issues the read. -/
theorem retry_after_error_reattempts :
    (∀ (s : EditorState) (p : String), p ≠ "" → s.latestFilePath = some p →
        s.error ≠ none ∨ s.saveError ≠ none →
        (loadFileStart (some p) s).2 = some p) ∧
    (∀ (s : MDXState) (p : String) (hw : Bool) (init : String)
        (wr wr2 : WriteResult) (rf r2 : ReadResult), p ≠ "" →
        ¬ some p = s.currentFilePath →
        rf = ReadResult.ok none ∨ (∃ m, rf = ReadResult.err m) →
        (loadFileContent (some p) true hw init wr rf s).1.loadError =
            some ("Failed to load file: " ++ p) ∧
        MDXCall.read p ∈
          (loadFileContent (some p) true hw init wr2 r2
            (loadFileContent (some p) true hw init wr rf s).1).2) := by
  constructor
  · intro s p hp _ _
    simp [loadFileStart, hp]
  · intro s p hw init wr wr2 rf r2 hp hne hrf
    have hfail := loadFileContent_failure s p hw init wr rf hp hne hrf
    constructor
    · rw [hfail]
    · refine loadFileContent_issues_read _ p hw init wr2 r2 hp ?_
      rw [hfail]
      exact hne

/-- Witness for C7: a load-error editor state for f re-issues the read for f,
and an MDX load of a.md that failed re-issues the read on the next attempt. -/
theorem retry_after_error_reattempts_witness :
    (loadFileStart (some "f") errorEditorState).2 = some "f" ∧
    ((loadFileContent (some "a.md") true true "init" WriteResult.ok
        (ReadResult.err "io") mdxFreshState).1.loadError =
      some ("Failed to load file: " ++ "a.md") ∧
    MDXCall.read "a.md" ∈
      (loadFileContent (some "a.md") true true "init" WriteResult.ok
        (ReadResult.ok (some "C"))
        (loadFileContent (some "a.md") true true "init" WriteResult.ok
          (ReadResult.err "io") mdxFreshState).1).2) :=
  ⟨retry_after_error_reattempts.1 errorEditorState "f" (by decide) (by decide)
      (Or.inl (by decide)),
   retry_after_error_reattempts.2 mdxFreshState "a.md" true "init"
      WriteResult.ok WriteResult.ok (ReadResult.err "io")
      (ReadResult.ok (some "C")) (by decide) (by decide)
      (Or.inr ⟨"io", rfl⟩)⟩

/-- Counterexample to claim C8 as stated.  The claim allows a save to no-op
only when the target is null, the provider cannot write, or the panel is not
dirty with no override supplied.  Here the target is f, the provider can
write, and an override is supplied, yet the code issues no write: the actual
guard compares the content to save against the persisted snapshot instead of
checking for the presence of an override. -/
theorem save_preconditions_counterexample :
    (handleEditorSaveStart (some "f") true (some "x") cleanEditorState).2 =
        none ∧
    (some "f" : Option String) ≠ none ∧
    (true : Bool) ≠ false ∧
    ¬(cleanEditorState.isDirty = false ∧ (some "x" : Option String) = none) :=
  by decide

/-- Claim C8 amended: save performs no provider write and changes no state
exactly when the target is absent (null or empty), or the provider has no
write capability, or the panel is not dirty and the content to save (the
override if supplied, else the working snapshot) equals the persisted
snapshot; in all other cases it issues the provider write. -/
theorem save_preconditions_amended (filePath : Option String)
    (hasWrite : Bool) (value : Option String) (s : EditorState) :
    ((handleEditorSaveStart filePath hasWrite value s).2 = none ∧
     (handleEditorSaveStart filePath hasWrite value s).1 = s) ↔
    (filePath.getD "" = "" ∨ hasWrite = false ∨
     (s.isDirty = false ∧ value.getD s.editorContent = s.fileContent)) := by
  cases filePath with
  | none => simp [handleEditorSaveStart]
  | some p =>
      by_cases hp : p = ""
      · subst hp
        simp [handleEditorSaveStart]
      · by_cases hw : hasWrite = false
        · simp [handleEditorSaveStart, hp, hw]
        · by_cases hc : s.isDirty = false ∧
              value.getD s.editorContent = s.fileContent
          · simp [handleEditorSaveStart, hp, hw, hc]
          · simp [handleEditorSaveStart, hp, hw, hc]

/-- Claim C9: the language mapping is a total deterministic function of the
lowercased last dot-separated segment of the path, with the claimed concrete
values in both the diff-panel table and the editor-panel table, a null path
mapping to plaintext, and every output drawn from plaintext plus the fixed
tables. -/
theorem language_mapping_total_deterministic :
    languageFromPath none = "plaintext" ∧
    languageFromPath (some "x.tsx") = "typescript" ∧
    languageFromPath (some "x.unknownext") = "plaintext" ∧
    getLanguage "x.tsx" = "typescript" ∧
    getLanguage "x.unknownext" = "plaintext" ∧
    (∀ p q : String, p ≠ "" → q ≠ "" → extKey p = extKey q →
        languageFromPath (some p) = languageFromPath (some q)) ∧
    (∀ o : Option String,
        languageFromPath o ∈ "plaintext" :: diffLanguageMap.map Prod.snd) ∧
    (∀ p : String,
        getLanguage p ∈ "plaintext" :: editorLanguageMap.map Prod.snd) := by
  refine ⟨by decide, by decide, by decide, by decide, by decide, ?_, ?_, ?_⟩
  · intro p q hp hq he
    simp [languageFromPath, hp, hq, he]
  · intro o
    cases o with
    | none => simp [languageFromPath]
    | some p =>
        by_cases hp : p = ""
        · simp [languageFromPath, hp]
        · simp only [languageFromPath, if_neg hp]
          exact lookup_getD_mem diffLanguageMap (extKey p) "plaintext"
  · intro p
    exact lookup_getD_mem editorLanguageMap (extKey p) "plaintext"

/-- Witness for C9: paths with the same case-insensitive extension get the
same language. -/
theorem language_mapping_total_deterministic_witness :
    languageFromPath (some "a.TSX") = languageFromPath (some "b.tsx") :=
  (language_mapping_total_deterministic.2.2.2.2.2.1) "a.TSX" "b.tsx"
    (by decide) (by decide) (by decide)

/-- Claim C10 (implicit): MDX auto-save.  When the target switches from a
loaded non-empty old path to a different non-empty new path while dirty with
a write-capable provider, the loader first writes the working markdown to the
old path and then reads the new one; the outcome of that auto-save write
influences nothing (its rejection is swallowed and the load proceeds), and
the unmount cleanup makes the same write. -/
theorem mdx_autosave_on_switch_and_unmount (s : MDXState)
    (oldPath newPath init : String) (wr : WriteResult) (r : ReadResult)
    (hold : s.currentFilePath = some oldPath) (ho : oldPath ≠ "")
    (hn : newPath ≠ "") (hdiff : newPath ≠ oldPath) (hd : s.isDirty = true) :
    (loadFileContent (some newPath) true true init wr r s).2 =
      [MDXCall.write oldPath s.markdown, MDXCall.read newPath] ∧
    loadFileContent (some newPath) true true init wr r s =
      loadFileContent (some newPath) true true init WriteResult.ok r s ∧
    unmountCleanup true s = [MDXCall.write oldPath s.markdown] := by
  have hne : ¬ some newPath = s.currentFilePath := by
    rw [hold]
    simp [hdiff]
  refine ⟨?_, ?_, ?_⟩
  · rcases r with oc | m
    · rcases oc with _ | c <;>
        simp [loadFileContent, hn, hne, hold, ho, hd, hdiff]
    · simp [loadFileContent, hn, hne, hold, ho, hd, hdiff]
  · rcases r with oc | m
    · rcases oc with _ | c <;> simp [loadFileContent, hn, hne]
    · simp [loadFileContent, hn, hne]
  · simp [unmountCleanup, hold, ho, hd]

/-- Witness for C10 on the dirty MDX sample state: switching from old.md to
new.md writes the draft first, reads new.md, ignores the auto-save failure,
and the unmount cleanup writes the draft as well. -/
theorem mdx_autosave_on_switch_and_unmount_witness :
    (loadFileContent (some "new.md") true true "init" (WriteResult.err "efail")
        (ReadResult.ok (some "C")) mdxDirtyState).2 =
      [MDXCall.write "old.md" mdxDirtyState.markdown, MDXCall.read "new.md"] ∧
    loadFileContent (some "new.md") true true "init" (WriteResult.err "efail")
        (ReadResult.ok (some "C")) mdxDirtyState =
      loadFileContent (some "new.md") true true "init" WriteResult.ok
        (ReadResult.ok (some "C")) mdxDirtyState ∧
    unmountCleanup true mdxDirtyState =
      [MDXCall.write "old.md" mdxDirtyState.markdown] :=
  mdx_autosave_on_switch_and_unmount mdxDirtyState "old.md" "new.md" "init"
    (WriteResult.err "efail") (ReadResult.ok (some "C")) (by decide)
    (by decide) (by decide) (by decide) (by decide)
